import Mathlib

/-!
Shallow embedding of the address-management core of the repository
`belajar-nestjs-restful-api` (file `src/address/address.service.ts`),
together with the collaborator contracts it consumes.

The backing store (Prisma client over a relational `address` table) is
modelled as an explicit state `Db`: a list of contact rows, a list of
address rows and the next primary key the store will assign.  Each
service operation is a function from a `Db` (plus the authenticated
user and the request) to a triple: the outcome (`Except SvcError _`),
the store state after the operation, and the list of pipeline steps the
operation executed in order (used to reason about control flow).
-/

namespace AddressService

/-- A persisted address row (Prisma model `Address`): primary key `id`,
foreign key `contact_id`, and five textual fields. -/
structure Address where
  id : Nat
  contact_id : Nat
  street : String
  city : String
  province : String
  country : String
  postal_code : String
  deriving DecidableEq, Repr

/-- A contact row, reduced to what the contact-ownership guard consults:
its primary key and the username of the owning user. -/
structure Contact where
  id : Nat
  username : String
  deriving DecidableEq, Repr

/-- The authenticated principal; the service only ever reads `username`. -/
structure User where
  username : String
  deriving DecidableEq, Repr

/-- `CreateAddressRequest` from `model/address.model.ts`. -/
structure CreateAddressRequest where
  contact_id : Nat
  street : String
  city : String
  province : String
  country : String
  postal_code : String
  deriving DecidableEq, Repr

/-- `GetAddressRequest`. -/
structure GetAddressRequest where
  contact_id : Nat
  address_id : Nat
  deriving DecidableEq, Repr

/-- `UpdateAddressRequest`: the target address `id`, the `contact_id`,
and all five textual fields. -/
structure UpdateAddressRequest where
  id : Nat
  contact_id : Nat
  street : String
  city : String
  province : String
  country : String
  postal_code : String
  deriving DecidableEq, Repr

/-- `RemoveAddressRequest`. -/
structure RemoveAddressRequest where
  contact_id : Nat
  address_id : Nat
  deriving DecidableEq, Repr

/-- `AddressResponse`: the public projection.  It has no `contact_id`
field and no storage-internal metadata. -/
structure AddressResponse where
  id : Nat
  street : String
  city : String
  province : String
  country : String
  postal_code : String
  deriving DecidableEq, Repr

/-- The error taxonomy of the service: `validation` for a rejected
request body (HTTP 400 with field errors, payload abstracted away),
`notFound msg` for `HttpException(msg, 404)`, and `internal` for an
unexpected store-level failure that would propagate as a fatal error. -/
inductive SvcError where
  | validation
  | notFound (msg : String)
  | internal
  deriving DecidableEq, Repr

/-- The pipeline stages an operation can execute, recorded in order:
request validation, the contact-ownership guard, the
address-existence guard (which itself performs the store read
`findFirst`), a further store operation, and response mapping. -/
inductive Step where
  | validate
  | checkContact
  | checkAddress
  | store
  | mapResponse
  deriving DecidableEq, Repr

/-- The backing store: contact rows, address rows, and the next
primary key the `address` relation will assign. -/
structure Db where
  contacts : List Contact
  addresses : List Address
  nextId : Nat
  deriving DecidableEq, Repr

/-- Store invariant maintained by a relational primary key: address ids
are pairwise distinct and below the next id to be assigned. -/
def Db.wf (db : Db) : Prop :=
  (db.addresses.map Address.id).Nodup ∧ ∀ a ∈ db.addresses, a.id < db.nextId

instance (db : Db) : Decidable db.wf := by
  unfold Db.wf; infer_instance

/-- Modelled from the spec: the textual-field rule of the Zod schemas in
the missing `address/address.validation.ts` — each of the five address
fields must be a non-empty string of length at most 255. -/
def validField (s : String) : Bool :=
  decide (1 ≤ s.length) && decide (s.length ≤ 255)

/-- Modelled from the spec: `AddressValidation.CREATE` (missing
`address/address.validation.ts`): positive `contact_id` and the five
textual fields all non-empty and length-bounded. -/
def validateCreate (r : CreateAddressRequest) : Bool :=
  decide (0 < r.contact_id) && validField r.street && validField r.city &&
    validField r.province && validField r.country && validField r.postal_code

/-- Modelled from the spec: `AddressValidation.GET` — shape check on the
two positive identifiers. -/
def validateGet (r : GetAddressRequest) : Bool :=
  decide (0 < r.contact_id) && decide (0 < r.address_id)

/-- Modelled from the spec: `AddressValidation.UPDATE` — positive ids plus
the same five textual-field rules as create. -/
def validateUpdate (r : UpdateAddressRequest) : Bool :=
  decide (0 < r.id) && decide (0 < r.contact_id) && validField r.street &&
    validField r.city && validField r.province && validField r.country &&
    validField r.postal_code

/-- Modelled from the spec: `AddressValidation.REMOVE` — shape check on the
two positive identifiers. -/
def validateRemove (r : RemoveAddressRequest) : Bool :=
  decide (0 < r.contact_id) && decide (0 < r.address_id)

/-- Modelled from the spec: `ContactService.checkContactMustExists
(ownerUsername, contactId)` (missing `contact/contact.service.ts`):
succeeds exactly when a contact with that id exists and belongs to that
username, and fails with a not-found error otherwise. -/
def checkContactMustExists (db : Db) (username : String) (contactId : Nat) :
    Except SvcError Unit :=
  if db.contacts.any (fun c => c.id == contactId && c.username == username) then
    Except.ok ()
  else
    Except.error (SvcError.notFound "Contact is not found")

/-- `prismaService.address.findFirst({ where: { id, contact_id } })`. -/
def addressFindFirst (db : Db) (address_id contactId : Nat) : Option Address :=
  db.addresses.find? (fun a => a.id == address_id && a.contact_id == contactId)

/-- `prismaService.address.create({ data: createRequest })`: the store
assigns the next primary key, appends the row, and returns it. -/
def addressCreate (db : Db) (r : CreateAddressRequest) : Address × Db :=
  let a : Address :=
    { id := db.nextId, contact_id := r.contact_id, street := r.street,
      city := r.city, province := r.province, country := r.country,
      postal_code := r.postal_code }
  (a, { db with addresses := db.addresses ++ [a], nextId := db.nextId + 1 })

/-- The row produced by `prismaService.address.update({ data: updateRequest })`:
the request carries every column of the relation (`id`, `contact_id` and the
five textual fields), so the updated row is determined by the request alone. -/
def rowOfUpdate (r : UpdateAddressRequest) : Address :=
  { id := r.id, contact_id := r.contact_id, street := r.street, city := r.city,
    province := r.province, country := r.country, postal_code := r.postal_code }

/-- `prismaService.address.update({ where: { id }, data: updateRequest })`:
fails (store-level) when no row has that primary key; otherwise overwrites
every row with that id (exactly one under `Db.wf`) and returns the updated
row. -/
def addressUpdate (db : Db) (i : Nat) (r : UpdateAddressRequest) :
    Option (Address × Db) :=
  match db.addresses.find? (fun x => x.id == i) with
  | none => none
  | some _ =>
      some (rowOfUpdate r,
        { db with addresses :=
            db.addresses.map (fun x => if x.id == i then rowOfUpdate r else x) })

/-- Remove the first row with the given primary key (the unique one
under `Db.wf`), as `prismaService.address.delete({ where: { id } })` does. -/
def deleteById : List Address → Nat → List Address
  | [], _ => []
  | a :: rest, i => if a.id == i then rest else a :: deleteById rest i

/-- `prismaService.address.delete({ where: { id } })`: fails (store-level)
when no row has that primary key; otherwise removes that row and returns
its last-known values. -/
def addressDelete (db : Db) (i : Nat) : Option (Address × Db) :=
  match db.addresses.find? (fun x => x.id == i) with
  | none => none
  | some a => some (a, { db with addresses := deleteById db.addresses i })

/-- `prismaService.address.findMany({ where: { contact_id } })`. -/
def addressFindMany (db : Db) (contactId : Nat) : List Address :=
  db.addresses.filter (fun a => a.contact_id == contactId)

/-- `toAddressResponse` from `address.service.ts`: project the stored row
onto `{id, street, city, province, country, postal_code}`. -/
def toAddressResponse (address : Address) : AddressResponse :=
  { id := address.id, street := address.street, city := address.city,
    province := address.province, country := address.country,
    postal_code := address.postal_code }

/-- `checkAddressMustExists(address_id, contactId)` from
`address.service.ts`: `findFirst` scoped by BOTH the address id and the
contact id; throws `HttpException('Address is not found', 404)` when no
such row exists. -/
def checkAddressMustExists (db : Db) (address_id contactId : Nat) :
    Except SvcError Address :=
  match addressFindFirst db address_id contactId with
  | none => Except.error (SvcError.notFound "Address is not found")
  | some a => Except.ok a

/-- `AddressService.create`: validate, contact guard, store create, map. -/
def create (db : Db) (user : User) (request : CreateAddressRequest) :
    Except SvcError AddressResponse × Db × List Step :=
  if validateCreate request then
    match checkContactMustExists db user.username request.contact_id with
    | Except.error e => (Except.error e, db, [Step.validate, Step.checkContact])
    | Except.ok _ =>
        let p := addressCreate db request
        (Except.ok (toAddressResponse p.1), p.2,
          [Step.validate, Step.checkContact, Step.store, Step.mapResponse])
  else
    (Except.error SvcError.validation, db, [Step.validate])

/-- `AddressService.get`: validate, contact guard, address guard
(whose `findFirst` is the store read), map. -/
def get (db : Db) (user : User) (request : GetAddressRequest) :
    Except SvcError AddressResponse × Db × List Step :=
  if validateGet request then
    match checkContactMustExists db user.username request.contact_id with
    | Except.error e => (Except.error e, db, [Step.validate, Step.checkContact])
    | Except.ok _ =>
        match checkAddressMustExists db request.address_id request.contact_id with
        | Except.error e =>
            (Except.error e, db, [Step.validate, Step.checkContact, Step.checkAddress])
        | Except.ok address =>
            (Except.ok (toAddressResponse address), db,
              [Step.validate, Step.checkContact, Step.checkAddress, Step.mapResponse])
  else
    (Except.error SvcError.validation, db, [Step.validate])

/-- `AddressService.update`: validate (the source omits `await` on this
call, but the validation collaborator is synchronous Zod parsing, so the
result is the validated request either way), contact guard, address guard
on `(updateRequest.id, updateRequest.contact_id)`, store update keyed by
the found row's id, map. -/
def update (db : Db) (user : User) (request : UpdateAddressRequest) :
    Except SvcError AddressResponse × Db × List Step :=
  if validateUpdate request then
    match checkContactMustExists db user.username request.contact_id with
    | Except.error e => (Except.error e, db, [Step.validate, Step.checkContact])
    | Except.ok _ =>
        match checkAddressMustExists db request.id request.contact_id with
        | Except.error e =>
            (Except.error e, db, [Step.validate, Step.checkContact, Step.checkAddress])
        | Except.ok address =>
            match addressUpdate db address.id request with
            | none =>
                (Except.error SvcError.internal, db,
                  [Step.validate, Step.checkContact, Step.checkAddress, Step.store])
            | some p =>
                (Except.ok (toAddressResponse p.1), p.2,
                  [Step.validate, Step.checkContact, Step.checkAddress,
                    Step.store, Step.mapResponse])
  else
    (Except.error SvcError.validation, db, [Step.validate])

/-- `AddressService.remove`: validate (also without `await` in the source;
Zod parsing of the two numeric fields returns them unchanged, so the raw
`request` fields the source passes to the address guard coincide with the
validated ones it passes to the delete), contact guard, address guard,
store delete keyed by the address id alone, map. -/
def remove (db : Db) (user : User) (request : RemoveAddressRequest) :
    Except SvcError AddressResponse × Db × List Step :=
  if validateRemove request then
    match checkContactMustExists db user.username request.contact_id with
    | Except.error e => (Except.error e, db, [Step.validate, Step.checkContact])
    | Except.ok _ =>
        match checkAddressMustExists db request.address_id request.contact_id with
        | Except.error e =>
            (Except.error e, db, [Step.validate, Step.checkContact, Step.checkAddress])
        | Except.ok _ =>
            match addressDelete db request.address_id with
            | none =>
                (Except.error SvcError.internal, db,
                  [Step.validate, Step.checkContact, Step.checkAddress, Step.store])
            | some p =>
                (Except.ok (toAddressResponse p.1), p.2,
                  [Step.validate, Step.checkContact, Step.checkAddress,
                    Step.store, Step.mapResponse])
  else
    (Except.error SvcError.validation, db, [Step.validate])

/-- `AddressService.list`: contact guard (no request validation — the
source takes a plain `contactId` and performs no `validate` call), store
read `findMany`, map each row. -/
def list (db : Db) (user : User) (contactId : Nat) :
    Except SvcError (List AddressResponse) × Db × List Step :=
  match checkContactMustExists db user.username contactId with
  | Except.error e => (Except.error e, db, [Step.checkContact])
  | Except.ok _ =>
      (Except.ok ((addressFindMany db contactId).map toAddressResponse), db,
        [Step.checkContact, Step.store, Step.mapResponse])

end AddressService

deriving instance DecidableEq for Except

namespace AddressService

/-- After removing the row with primary key `i` from a list of rows with
pairwise-distinct ids, no remaining row has id `i`. -/
theorem deleteById_id_ne {l : List Address} {i : Nat}
    (hnd : (l.map Address.id).Nodup) :
    ∀ x ∈ deleteById l i, x.id ≠ i := by
  induction l with
  | nil => intro x hx; simp [deleteById] at hx
  | cons b rest ih =>
      simp only [List.map_cons, List.nodup_cons, List.mem_map] at hnd
      by_cases hb : b.id = i
      · intro x hx hxi
        rw [deleteById, if_pos (by simp [hb])] at hx
        exact hnd.1 ⟨x, hx, by rw [hxi, hb]⟩
      · intro x hx hxi
        rw [deleteById, if_neg (by simp [hb])] at hx
        rcases List.mem_cons.mp hx with h | h
        · exact hb (h ▸ hxi)
        · exact ih hnd.2 x h hxi

/-- Removing primary key `i` from a duplicate-free list containing a row
`a` with `a.id = i` splits the list around exactly that row. -/
theorem deleteById_split {l : List Address} {a : Address} {i : Nat}
    (hnd : (l.map Address.id).Nodup) (hmem : a ∈ l) (ha : a.id = i) :
    ∃ l1 l2, l = l1 ++ a :: l2 ∧ deleteById l i = l1 ++ l2 := by
  induction l with
  | nil => cases hmem
  | cons b rest ih =>
      simp only [List.map_cons, List.nodup_cons, List.mem_map] at hnd
      by_cases hb : b.id = i
      · have hab : a = b := by
          rcases List.mem_cons.mp hmem with h | h
          · exact h
          · exact absurd ⟨a, h, by rw [ha, hb]⟩ hnd.1
        exact ⟨[], rest, by simp [hab],
          by rw [deleteById, if_pos (by simp [hb])]; simp⟩
      · have hmem' : a ∈ rest := by
          rcases List.mem_cons.mp hmem with h | h
          · exact absurd (h ▸ ha) hb
          · exact h
        obtain ⟨l1, l2, he, hd⟩ := ih hnd.2 hmem'
        exact ⟨b :: l1, l2, by simp [he],
          by rw [deleteById, if_neg (by simp [hb])]; simp [hd]⟩

end AddressService

open AddressService

/-- Store with two contacts owned by different users and a single address
owned by the second contact; used to exercise cross-contact scoping. -/
def dbA : Db :=
  { contacts := [{ id := 1, username := "alice" }, { id := 2, username := "bob" }],
    addresses := [{ id := 5, contact_id := 2, street := "s", city := "c",
                    province := "p", country := "co", postal_code := "z" }],
    nextId := 6 }

/-- The caller used by the concrete witnesses. -/
def alice : User := { username := "alice" }

/-- Get request naming alice's contact 1 but bob's address 5. -/
def getReqCross : GetAddressRequest := { contact_id := 1, address_id := 5 }

/-- Update request naming alice's contact 1 but bob's address 5. -/
def updReqCross : UpdateAddressRequest :=
  { id := 5, contact_id := 1, street := "s2", city := "c2", province := "p2",
    country := "co2", postal_code := "z2" }

/-- Remove request naming alice's contact 1 but bob's address 5. -/
def rmReqCross : RemoveAddressRequest := { contact_id := 1, address_id := 5 }

/-- Create request with an empty street. -/
def createReqEmpty : CreateAddressRequest :=
  { contact_id := 1, street := "", city := "c", province := "p",
    country := "co", postal_code := "z" }

/-- Update request with an empty postal code. -/
def updReqEmpty : UpdateAddressRequest :=
  { id := 5, contact_id := 2, street := "s", city := "c", province := "p",
    country := "co", postal_code := "" }

/-- Well-formed create request for alice's contact 1. -/
def createReqA : CreateAddressRequest :=
  { contact_id := 1, street := "street test", city := "city test",
    province := "province test", country := "country test", postal_code := "1111" }

/-- C1: for get, update and remove, when validation passes and the contact
guard succeeds but no address row carries both the requested address id and
the requested contact id, the operation fails with the
`Address is not found` error — address rows under other contacts are
invisible to the lookup by construction of the double-scoped `findFirst`. -/
theorem addr_scoping_not_found :
    (∀ (db : Db) (u : User) (r : GetAddressRequest),
      validateGet r = true →
      checkContactMustExists db u.username r.contact_id = Except.ok () →
      addressFindFirst db r.address_id r.contact_id = none →
      (AddressService.get db u r).1
        = Except.error (SvcError.notFound "Address is not found")) ∧
    (∀ (db : Db) (u : User) (r : UpdateAddressRequest),
      validateUpdate r = true →
      checkContactMustExists db u.username r.contact_id = Except.ok () →
      addressFindFirst db r.id r.contact_id = none →
      (update db u r).1
        = Except.error (SvcError.notFound "Address is not found")) ∧
    (∀ (db : Db) (u : User) (r : RemoveAddressRequest),
      validateRemove r = true →
      checkContactMustExists db u.username r.contact_id = Except.ok () →
      addressFindFirst db r.address_id r.contact_id = none →
      (remove db u r).1
        = Except.error (SvcError.notFound "Address is not found")) := by
  refine ⟨?_, ?_, ?_⟩ <;>
    · intro db u r hv hc ha
      simp [AddressService.get, update, remove, hv, hc, checkAddressMustExists, ha]

/-- C1 witness: address 5 exists, but under contact 2 (bob's); alice's
get/update/remove on contact 1 with address id 5 all report not-found. -/
theorem addr_scoping_not_found_witness :
    (AddressService.get dbA alice getReqCross).1
        = Except.error (SvcError.notFound "Address is not found") ∧
    (update dbA alice updReqCross).1
        = Except.error (SvcError.notFound "Address is not found") ∧
    (remove dbA alice rmReqCross).1
        = Except.error (SvcError.notFound "Address is not found") :=
  ⟨addr_scoping_not_found.1 dbA alice getReqCross (by decide) (by decide) (by decide),
   addr_scoping_not_found.2.1 dbA alice updReqCross (by decide) (by decide) (by decide),
   addr_scoping_not_found.2.2 dbA alice rmReqCross (by decide) (by decide) (by decide)⟩

/-- C2: an empty string in any of the five textual fields makes create and
update fail with the validation error, and the failing operation leaves the
store exactly as it was. -/
theorem empty_field_validation_rejects :
    ∀ (db : Db) (u : User) (r : CreateAddressRequest) (r2 : UpdateAddressRequest),
      ((r.street = "" ∨ r.city = "" ∨ r.province = "" ∨ r.country = "" ∨
          r.postal_code = "") →
        (create db u r).1 = Except.error SvcError.validation ∧
        (create db u r).2.1 = db) ∧
      ((r2.street = "" ∨ r2.city = "" ∨ r2.province = "" ∨ r2.country = "" ∨
          r2.postal_code = "") →
        (update db u r2).1 = Except.error SvcError.validation ∧
        (update db u r2).2.1 = db) := by
  intro db u r r2
  constructor
  · intro h5
    have hv : validateCreate r = false := by
      rcases h5 with h | h | h | h | h <;>
        simp [validateCreate, validField, h]
    simp [create, hv]
  · intro h5
    have hv : validateUpdate r2 = false := by
      rcases h5 with h | h | h | h | h <;>
        simp [validateUpdate, validField, h]
    simp [update, hv]

/-- C2 witness: a create request with an empty street and an update request
with an empty postal code are both rejected and leave the store unchanged. -/
theorem empty_field_validation_rejects_witness :
    ((create dbA alice createReqEmpty).1 = Except.error SvcError.validation ∧
      (create dbA alice createReqEmpty).2.1 = dbA) ∧
    ((update dbA alice updReqEmpty).1 = Except.error SvcError.validation ∧
      (update dbA alice updReqEmpty).2.1 = dbA) :=
  ⟨(empty_field_validation_rejects dbA alice createReqEmpty updReqEmpty).1
      (Or.inl rfl),
   (empty_field_validation_rejects dbA alice createReqEmpty updReqEmpty).2
      (Or.inr (Or.inr (Or.inr (Or.inr rfl))))⟩

/-- C4: when validation and the contact guard succeed, create appends
exactly one new row, linked to the requested contact and carrying the five
input fields verbatim, and returns the projection of that row, whose id is
the store-assigned `nextId` (fresh with respect to every existing row when
the store is well-formed). -/
theorem create_adds_one_row_and_echoes :
    ∀ (db : Db) (u : User) (r : CreateAddressRequest),
      validateCreate r = true →
      checkContactMustExists db u.username r.contact_id = Except.ok () →
      ∃ a : Address,
        (create db u r).1 = Except.ok (toAddressResponse a) ∧
        (create db u r).2.1.addresses = db.addresses ++ [a] ∧
        a.contact_id = r.contact_id ∧ a.id = db.nextId ∧
        a.street = r.street ∧ a.city = r.city ∧ a.province = r.province ∧
        a.country = r.country ∧ a.postal_code = r.postal_code ∧
        toAddressResponse a =
          { id := a.id, street := r.street, city := r.city, province := r.province,
            country := r.country, postal_code := r.postal_code } ∧
        (db.wf → ∀ x ∈ db.addresses, x.id ≠ a.id) := by
  intro db u r hv hc
  refine ⟨{ id := db.nextId, contact_id := r.contact_id, street := r.street,
            city := r.city, province := r.province, country := r.country,
            postal_code := r.postal_code },
    ?_, ?_, rfl, rfl, rfl, rfl, rfl, rfl, rfl, rfl, ?_⟩
  · simp [create, hv, hc, addressCreate]
  · simp [create, hv, hc, addressCreate]
  · intro hwf x hx
    exact Nat.ne_of_lt (hwf.2 x hx)

/-- C4 witness: creating an address under alice's contact succeeds and
appends the expected row. -/
theorem create_adds_one_row_and_echoes_witness :
    ∃ a : Address,
      (create dbA alice createReqA).1 = Except.ok (toAddressResponse a) ∧
      (create dbA alice createReqA).2.1.addresses = dbA.addresses ++ [a] ∧
      a.contact_id = createReqA.contact_id ∧ a.id = dbA.nextId ∧
      a.street = createReqA.street ∧ a.city = createReqA.city ∧
      a.province = createReqA.province ∧ a.country = createReqA.country ∧
      a.postal_code = createReqA.postal_code ∧
      toAddressResponse a =
        { id := a.id, street := createReqA.street, city := createReqA.city,
          province := createReqA.province, country := createReqA.country,
          postal_code := createReqA.postal_code } ∧
      (dbA.wf → ∀ x ∈ dbA.addresses, x.id ≠ a.id) :=
  create_adds_one_row_and_echoes dbA alice createReqA (by decide) (by decide)

/-- C3: whenever any of the five operations fails — in particular with the
validation error or a not-found error — the store it returns is exactly the
store it was given: every guard precedes the store mutation, so no failed
operation partially mutates state. -/
theorem error_leaves_store_unchanged :
    (∀ (db : Db) (u : User) (r : CreateAddressRequest) (e : SvcError),
      (create db u r).1 = Except.error e → (create db u r).2.1 = db) ∧
    (∀ (db : Db) (u : User) (r : GetAddressRequest) (e : SvcError),
      (AddressService.get db u r).1 = Except.error e →
        (AddressService.get db u r).2.1 = db) ∧
    (∀ (db : Db) (u : User) (r : UpdateAddressRequest) (e : SvcError),
      (update db u r).1 = Except.error e → (update db u r).2.1 = db) ∧
    (∀ (db : Db) (u : User) (r : RemoveAddressRequest) (e : SvcError),
      (remove db u r).1 = Except.error e → (remove db u r).2.1 = db) ∧
    (∀ (db : Db) (u : User) (contactId : Nat) (e : SvcError),
      (list db u contactId).1 = Except.error e →
        (list db u contactId).2.1 = db) := by
  refine ⟨?_, ?_, ?_, ?_, ?_⟩
  · intro db u r e h
    cases hv : validateCreate r
    · simp [create, hv]
    · cases hc : checkContactMustExists db u.username r.contact_id with
      | error e2 => simp [create, hv, hc]
      | ok v => simp [create, hv, hc] at h
  · intro db u r e h
    cases hv : validateGet r
    · simp [AddressService.get, hv]
    · cases hc : checkContactMustExists db u.username r.contact_id with
      | error e2 => simp [AddressService.get, hv, hc]
      | ok v =>
          cases hA : checkAddressMustExists db r.address_id r.contact_id with
          | error e3 => simp [AddressService.get, hv, hc, hA]
          | ok a => simp [AddressService.get, hv, hc, hA] at h
  · intro db u r e h
    cases hv : validateUpdate r
    · simp [update, hv]
    · cases hc : checkContactMustExists db u.username r.contact_id with
      | error e2 => simp [update, hv, hc]
      | ok v =>
          cases hA : checkAddressMustExists db r.id r.contact_id with
          | error e3 => simp [update, hv, hc, hA]
          | ok a =>
              cases hU : addressUpdate db a.id r with
              | none => simp [update, hv, hc, hA, hU]
              | some p => simp [update, hv, hc, hA, hU] at h
  · intro db u r e h
    cases hv : validateRemove r
    · simp [remove, hv]
    · cases hc : checkContactMustExists db u.username r.contact_id with
      | error e2 => simp [remove, hv, hc]
      | ok v =>
          cases hA : checkAddressMustExists db r.address_id r.contact_id with
          | error e3 => simp [remove, hv, hc, hA]
          | ok a =>
              cases hD : addressDelete db r.address_id with
              | none => simp [remove, hv, hc, hA, hD]
              | some p => simp [remove, hv, hc, hA, hD] at h
  · intro db u contactId e h
    cases hc : checkContactMustExists db u.username contactId with
    | error e2 => simp [list, hc]
    | ok v => simp [list, hc] at h

/-- C3 witness: alice's failed cross-contact remove and a failed validation
on create both leave the concrete store untouched. -/
theorem error_leaves_store_unchanged_witness :
    (remove dbA alice rmReqCross).2.1 = dbA ∧
    (create dbA alice createReqEmpty).2.1 = dbA :=
  ⟨error_leaves_store_unchanged.2.2.2.1 dbA alice rmReqCross
      (SvcError.notFound "Address is not found") (by decide),
   error_leaves_store_unchanged.1 dbA alice createReqEmpty
      SvcError.validation (by decide)⟩

namespace AddressService

/-- Inversion of a successful address-existence guard: the returned row is
stored, carries exactly the requested address id and contact id, and is the
row the double-scoped `findFirst` located. -/
theorem checkAddressMustExists_ok {db : Db} {i c : Nat} {a : Address}
    (h : checkAddressMustExists db i c = Except.ok a) :
    a ∈ db.addresses ∧ a.id = i ∧ a.contact_id = c ∧
      addressFindFirst db i c = some a := by
  unfold checkAddressMustExists at h
  cases hf : addressFindFirst db i c with
  | none => rw [hf] at h; cases h
  | some b =>
      rw [hf] at h
      cases h
      unfold addressFindFirst at hf
      have hp := List.find?_some hf
      simp only [Bool.and_eq_true, beq_iff_eq] at hp
      exact ⟨List.mem_of_find?_eq_some hf, hp.1, hp.2, rfl⟩

/-- Inversion of a successful store delete: contacts and the id counter are
untouched, the surviving rows are `deleteById`, and the returned row is the
one the primary-key lookup found. -/
theorem addressDelete_some {db : Db} {i : Nat} {p : Address × Db}
    (h : addressDelete db i = some p) :
    p.2.contacts = db.contacts ∧ p.2.nextId = db.nextId ∧
      p.2.addresses = deleteById db.addresses i ∧
      db.addresses.find? (fun x => x.id == i) = some p.1 := by
  unfold addressDelete at h
  cases hf : db.addresses.find? (fun x => x.id == i) with
  | none => rw [hf] at h; cases h
  | some a => rw [hf] at h; cases h; exact ⟨rfl, rfl, rfl, rfl⟩

/-- Inversion of a successful store update: contacts and the id counter are
untouched, every row with the targeted primary key is overwritten with the
request's columns, and the returned row is built from the request alone. -/
theorem addressUpdate_some {db : Db} {i : Nat} {r : UpdateAddressRequest}
    {p : Address × Db} (h : addressUpdate db i r = some p) :
    p.1 = rowOfUpdate r ∧ p.2.contacts = db.contacts ∧ p.2.nextId = db.nextId ∧
      p.2.addresses =
        db.addresses.map (fun x => if x.id == i then rowOfUpdate r else x) := by
  unfold addressUpdate at h
  cases hf : db.addresses.find? (fun x => x.id == i) with
  | none => rw [hf] at h; cases h
  | some a => rw [hf] at h; cases h; exact ⟨rfl, rfl, rfl, rfl⟩

end AddressService

/-- C5: after a successful remove, a get for the same contact id and
address id against the resulting store fails with the
`Address is not found` error (the store is assumed well-formed, as a
relational primary key guarantees). -/
theorem remove_then_get_not_found :
    ∀ (db : Db) (u : User) (r : RemoveAddressRequest) (resp : AddressResponse),
      db.wf →
      (remove db u r).1 = Except.ok resp →
      (AddressService.get (remove db u r).2.1 u
          { contact_id := r.contact_id, address_id := r.address_id }).1
        = Except.error (SvcError.notFound "Address is not found") := by
  intro db u r resp hwf hok
  cases hv : validateRemove r with
  | false => simp [remove, hv] at hok
  | true =>
    cases hc : checkContactMustExists db u.username r.contact_id with
    | error e => simp [remove, hv, hc] at hok
    | ok v =>
        cases hA : checkAddressMustExists db r.address_id r.contact_id with
        | error e => simp [remove, hv, hc, hA] at hok
        | ok a =>
            cases hD : addressDelete db r.address_id with
            | none => simp [remove, hv, hc, hA, hD] at hok
            | some p =>
                obtain ⟨hpc, _, hpa, _⟩ := addressDelete_some hD
                have hv2 : validateGet
                    { contact_id := r.contact_id, address_id := r.address_id }
                      = true := hv
                have hc2 : checkContactMustExists p.2 u.username r.contact_id
                    = Except.ok () := by
                  unfold checkContactMustExists at hc ⊢
                  rw [hpc]
                  exact hc
                have hnone : addressFindFirst p.2 r.address_id r.contact_id
                    = none := by
                  unfold addressFindFirst
                  rw [hpa]
                  refine List.find?_eq_none.mpr ?_
                  intro x hx
                  have hne := deleteById_id_ne hwf.1 x hx
                  simp [hne]
                have hrem : (remove db u r).2.1 = p.2 := by
                  simp [remove, hv, hc, hA, hD]
                rw [hrem]
                simp [AddressService.get, hv2, hc2, checkAddressMustExists, hnone]

/-- Store owned by alice holding one address under her contact 1. -/
def dbB : Db :=
  { contacts := [{ id := 1, username := "alice" }],
    addresses := [{ id := 7, contact_id := 1, street := "street test",
                    city := "city test", province := "province test",
                    country := "country test", postal_code := "1111" }],
    nextId := 8 }

/-- Remove request for alice's own address 7 under contact 1. -/
def rmReqB : RemoveAddressRequest := { contact_id := 1, address_id := 7 }

/-- C5 witness: removing alice's address 7 succeeds, and a get for the same
pair on the resulting store reports not-found. -/
theorem remove_then_get_not_found_witness :
    (AddressService.get (remove dbB alice rmReqB).2.1 alice
        { contact_id := rmReqB.contact_id, address_id := rmReqB.address_id }).1
      = Except.error (SvcError.notFound "Address is not found") :=
  remove_then_get_not_found dbB alice rmReqB
    { id := 7, street := "street test", city := "city test",
      province := "province test", country := "country test",
      postal_code := "1111" }
    (by decide) (by decide)

namespace AddressService

/-- In the row list produced by an update targeting id `r.id`, the
double-scoped lookup for `(r.id, r.contact_id)` finds exactly the row
built from the update request, provided some original row had that id. -/
theorem find?_map_rowOfUpdate {l : List Address} {r : UpdateAddressRequest}
    (hex : ∃ x ∈ l, x.id = r.id) :
    (l.map (fun x => if x.id == r.id then rowOfUpdate r else x)).find?
        (fun x => x.id == r.id && x.contact_id == r.contact_id)
      = some (rowOfUpdate r) := by
  induction l with
  | nil =>
      obtain ⟨x, hx, _⟩ := hex
      cases hx
  | cons y ys ih =>
      by_cases hy : y.id = r.id
      · simp [hy, rowOfUpdate]
      · have hex' : ∃ x ∈ ys, x.id = r.id := by
          obtain ⟨x, hx, hxid⟩ := hex
          rcases List.mem_cons.mp hx with h | h
          · exact absurd (h ▸ hxid) hy
          · exact ⟨x, h, hxid⟩
        simp only [List.map_cons]
        rw [List.find?_cons_of_neg]
        · exact ih hex'
        · simp [hy]

/-- Same as `find?_map_rowOfUpdate` for the primary-key-only lookup used
by the store update. -/
theorem find?_id_map_rowOfUpdate {l : List Address} {r : UpdateAddressRequest}
    (hex : ∃ x ∈ l, x.id = r.id) :
    (l.map (fun x => if x.id == r.id then rowOfUpdate r else x)).find?
        (fun x => x.id == r.id) = some (rowOfUpdate r) := by
  induction l with
  | nil =>
      obtain ⟨x, hx, _⟩ := hex
      cases hx
  | cons y ys ih =>
      by_cases hy : y.id = r.id
      · simp [hy, rowOfUpdate]
      · have hex' : ∃ x ∈ ys, x.id = r.id := by
          obtain ⟨x, hx, hxid⟩ := hex
          rcases List.mem_cons.mp hx with h | h
          · exact absurd (h ▸ hxid) hy
          · exact ⟨x, h, hxid⟩
        simp only [List.map_cons]
        rw [List.find?_cons_of_neg]
        · exact ih hex'
        · simp [hy]

/-- Overwriting the rows with id `r.id` a second time changes nothing. -/
theorem map_rowOfUpdate_idem (l : List Address) (r : UpdateAddressRequest) :
    (l.map (fun x => if x.id == r.id then rowOfUpdate r else x)).map
        (fun x => if x.id == r.id then rowOfUpdate r else x)
      = l.map (fun x => if x.id == r.id then rowOfUpdate r else x) := by
  rw [List.map_map]
  apply List.map_congr_left
  intro a ha
  by_cases haid : a.id = r.id
  · simp [Function.comp, haid, rowOfUpdate]
  · simp [Function.comp, haid]

/-- Evaluation of the store update when the primary-key lookup succeeds. -/
theorem addressUpdate_eq_some {db : Db} {i : Nat} {r : UpdateAddressRequest}
    {b : Address} (hf : db.addresses.find? (fun x => x.id == i) = some b) :
    addressUpdate db i r
      = some (rowOfUpdate r,
          { db with addresses :=
              db.addresses.map (fun x => if x.id == i then rowOfUpdate r else x) }) := by
  unfold addressUpdate
  rw [hf]

/-- Evaluation of `update` on its success path. -/
theorem update_eval {db : Db} {u : User} {r : UpdateAddressRequest}
    {a : Address} {p : Address × Db} (hv : validateUpdate r = true)
    (hc : checkContactMustExists db u.username r.contact_id = Except.ok ())
    (hA : checkAddressMustExists db r.id r.contact_id = Except.ok a)
    (hU : addressUpdate db a.id r = some p) :
    update db u r
      = (Except.ok (toAddressResponse p.1), p.2,
          [Step.validate, Step.checkContact, Step.checkAddress, Step.store,
            Step.mapResponse]) := by
  simp [update, hv, hc, hA, hU]

end AddressService

/-- C6: a successful update returns a response carrying the request's id
and all five of the request's textual values, the resulting store still
holds a row with the target id, and every stored row with the target id
carries exactly the five new values — the update never leaves a targeted
row partially written. -/
theorem update_overwrites_all_fields :
    ∀ (db : Db) (u : User) (r : UpdateAddressRequest) (resp : AddressResponse),
      (update db u r).1 = Except.ok resp →
      resp.id = r.id ∧ resp.street = r.street ∧ resp.city = r.city ∧
      resp.province = r.province ∧ resp.country = r.country ∧
      resp.postal_code = r.postal_code ∧
      (∃ x ∈ (update db u r).2.1.addresses, x.id = r.id) ∧
      (∀ x ∈ (update db u r).2.1.addresses, x.id = r.id →
        x.street = r.street ∧ x.city = r.city ∧ x.province = r.province ∧
        x.country = r.country ∧ x.postal_code = r.postal_code) := by
  intro db u r resp hok
  cases hv : validateUpdate r with
  | false => simp [update, hv] at hok
  | true =>
    cases hc : checkContactMustExists db u.username r.contact_id with
    | error e => simp [update, hv, hc] at hok
    | ok v =>
        cases hA : checkAddressMustExists db r.id r.contact_id with
        | error e => simp [update, hv, hc, hA] at hok
        | ok a =>
            cases hU : addressUpdate db a.id r with
            | none => simp [update, hv, hc, hA, hU] at hok
            | some p =>
                obtain ⟨hamem, ha1, _, _⟩ := checkAddressMustExists_ok hA
                obtain ⟨hp1, _, _, hpa⟩ := addressUpdate_some hU
                rw [ha1] at hpa
                have hresp : resp = toAddressResponse (rowOfUpdate r) := by
                  simp [update, hv, hc, hA, hU] at hok
                  rw [← hok, hp1]
                have h21 : (update db u r).2.1 = p.2 := by
                  simp [update, hv, hc, hA, hU]
                rw [h21, hpa, hresp]
                refine ⟨rfl, rfl, rfl, rfl, rfl, rfl, ?_, ?_⟩
                · refine ⟨rowOfUpdate r, ?_, rfl⟩
                  have := List.mem_map_of_mem
                    (fun x => if x.id == r.id then rowOfUpdate r else x) hamem
                  simpa [ha1] using this
                · intro x hx hid
                  obtain ⟨y, hy, hxy⟩ := List.mem_map.mp hx
                  by_cases hyid : y.id = r.id
                  · rw [if_pos (by simp [hyid])] at hxy
                    rw [← hxy]
                    exact ⟨rfl, rfl, rfl, rfl, rfl⟩
                  · rw [if_neg (by simp [hyid])] at hxy
                    exact absurd (hxy ▸ hid) hyid

/-- Update request rewriting alice's address 7 with five new values. -/
def updReqB : UpdateAddressRequest :=
  { id := 7, contact_id := 1, street := "street updated", city := "city updated",
    province := "province updated", country := "country updated",
    postal_code := "2222" }

/-- The response a successful `updReqB` produces. -/
def respB : AddressResponse :=
  { id := 7, street := "street updated", city := "city updated",
    province := "province updated", country := "country updated",
    postal_code := "2222" }

/-- C6 witness: updating alice's address 7 succeeds and the conclusion of
the theorem holds for the concrete response. -/
theorem update_overwrites_all_fields_witness :
    respB.id = updReqB.id ∧ respB.street = updReqB.street ∧
    respB.city = updReqB.city ∧ respB.province = updReqB.province ∧
    respB.country = updReqB.country ∧ respB.postal_code = updReqB.postal_code ∧
    (∃ x ∈ (update dbB alice updReqB).2.1.addresses, x.id = updReqB.id) ∧
    (∀ x ∈ (update dbB alice updReqB).2.1.addresses, x.id = updReqB.id →
      x.street = updReqB.street ∧ x.city = updReqB.city ∧
      x.province = updReqB.province ∧ x.country = updReqB.country ∧
      x.postal_code = updReqB.postal_code) :=
  update_overwrites_all_fields dbB alice updReqB respB (by decide)

/-- C7: update is idempotent in effect — if an update succeeds, running the
identical update on the resulting store succeeds with the same response,
leaves the store exactly as after the first run, and performs the same
steps. -/
theorem update_idempotent :
    ∀ (db : Db) (u : User) (r : UpdateAddressRequest) (resp : AddressResponse),
      (update db u r).1 = Except.ok resp →
      update (update db u r).2.1 u r
        = (Except.ok resp, (update db u r).2.1, (update db u r).2.2) := by
  intro db u r resp hok
  cases hv : validateUpdate r with
  | false => simp [update, hv] at hok
  | true =>
    cases hc : checkContactMustExists db u.username r.contact_id with
    | error e => simp [update, hv, hc] at hok
    | ok v =>
        cases hA : checkAddressMustExists db r.id r.contact_id with
        | error e => simp [update, hv, hc, hA] at hok
        | ok a =>
            cases hU : addressUpdate db a.id r with
            | none => simp [update, hv, hc, hA, hU] at hok
            | some p =>
                obtain ⟨pa, pdb⟩ := p
                obtain ⟨pdc, pda, pdn⟩ := pdb
                obtain ⟨hamem, ha1, _, _⟩ := checkAddressMustExists_ok hA
                obtain ⟨hp1, hpc, hpn, hpa⟩ := addressUpdate_some hU
                simp only at hp1 hpc hpn hpa
                subst hp1 hpc hpn
                rw [ha1] at hpa
                subst hpa
                have hex : ∃ x ∈ db.addresses, x.id = r.id := ⟨a, hamem, ha1⟩
                have hresp : resp = toAddressResponse (rowOfUpdate r) := by
                  simp [update, hv, hc, hA, hU] at hok
                  rw [← hok]
                have h21 : (update db u r).2.1
                    = ⟨db.contacts,
                        db.addresses.map
                          (fun x => if x.id == r.id then rowOfUpdate r else x),
                        db.nextId⟩ := by
                  simp [update, hv, hc, hA, hU]
                have h22 : (update db u r).2.2
                    = [Step.validate, Step.checkContact, Step.checkAddress,
                        Step.store, Step.mapResponse] := by
                  simp [update, hv, hc, hA, hU]
                have hc2 : checkContactMustExists
                    (⟨db.contacts,
                      db.addresses.map
                        (fun x => if x.id == r.id then rowOfUpdate r else x),
                      db.nextId⟩ : Db) u.username r.contact_id
                    = Except.ok () := hc
                have hA2 : checkAddressMustExists
                    (⟨db.contacts,
                      db.addresses.map
                        (fun x => if x.id == r.id then rowOfUpdate r else x),
                      db.nextId⟩ : Db) r.id r.contact_id
                    = Except.ok (rowOfUpdate r) := by
                  unfold checkAddressMustExists addressFindFirst
                  rw [show (⟨db.contacts,
                      db.addresses.map
                        (fun x => if x.id == r.id then rowOfUpdate r else x),
                      db.nextId⟩ : Db).addresses
                    = db.addresses.map
                        (fun x => if x.id == r.id then rowOfUpdate r else x) from rfl]
                  rw [find?_map_rowOfUpdate hex]
                have hf2 : (⟨db.contacts,
                    db.addresses.map
                      (fun x => if x.id == r.id then rowOfUpdate r else x),
                    db.nextId⟩ : Db).addresses.find? (fun x => x.id == r.id)
                      = some (rowOfUpdate r) :=
                  find?_id_map_rowOfUpdate hex
                have hU2 : addressUpdate
                    (⟨db.contacts,
                      db.addresses.map
                        (fun x => if x.id == r.id then rowOfUpdate r else x),
                      db.nextId⟩ : Db) (rowOfUpdate r).id r
                    = some (rowOfUpdate r,
                        ⟨db.contacts,
                          db.addresses.map
                            (fun x => if x.id == r.id then rowOfUpdate r else x),
                          db.nextId⟩) := by
                  refine (addressUpdate_eq_some hf2).trans ?_
                  have hidem : (⟨db.contacts,
                      db.addresses.map
                        (fun x => if x.id == r.id then rowOfUpdate r else x),
                      db.nextId⟩ : Db).addresses.map
                        (fun x => if x.id == r.id then rowOfUpdate r else x)
                      = (⟨db.contacts,
                          db.addresses.map
                            (fun x => if x.id == r.id then rowOfUpdate r else x),
                          db.nextId⟩ : Db).addresses :=
                    map_rowOfUpdate_idem db.addresses r
                  rw [hidem]
                rw [h21, h22, hresp]
                exact update_eval hv hc2 hA2 hU2

/-- C7 witness: running `updReqB` on the store produced by the first
`updReqB` run yields the same response, the same store and the same
steps. -/
theorem update_idempotent_witness :
    update (update dbB alice updReqB).2.1 alice updReqB
      = (Except.ok respB, (update dbB alice updReqB).2.1,
          (update dbB alice updReqB).2.2) :=
  update_idempotent dbB alice updReqB respB (by decide)

/-- C8 counterexample: the claim says every operation's first pipeline step
is request validation, but `list` performs no validation call at all — its
recorded steps on a concrete run do not begin with the validate step. -/
theorem pipeline_step_order_counterexample :
    ¬ ((list dbA alice 1).2.2.head? = some Step.validate) := by decide

/-- C8 (amended): create, get, update and remove run validate, then the
contact guard, then (get/update/remove) the address guard, then
(create/update/remove) the store write, then response mapping; for get the
store read is the address guard's own lookup, so no separate store step
follows it; list performs no validation step and runs the contact guard,
then the store read, then mapping. -/
theorem pipeline_step_order :
    (∀ (db : Db) (u : User) (r : CreateAddressRequest) (resp : AddressResponse),
      (create db u r).1 = Except.ok resp →
      (create db u r).2.2
        = [Step.validate, Step.checkContact, Step.store, Step.mapResponse]) ∧
    (∀ (db : Db) (u : User) (r : GetAddressRequest) (resp : AddressResponse),
      (AddressService.get db u r).1 = Except.ok resp →
      (AddressService.get db u r).2.2
        = [Step.validate, Step.checkContact, Step.checkAddress,
            Step.mapResponse]) ∧
    (∀ (db : Db) (u : User) (r : UpdateAddressRequest) (resp : AddressResponse),
      (update db u r).1 = Except.ok resp →
      (update db u r).2.2
        = [Step.validate, Step.checkContact, Step.checkAddress, Step.store,
            Step.mapResponse]) ∧
    (∀ (db : Db) (u : User) (r : RemoveAddressRequest) (resp : AddressResponse),
      (remove db u r).1 = Except.ok resp →
      (remove db u r).2.2
        = [Step.validate, Step.checkContact, Step.checkAddress, Step.store,
            Step.mapResponse]) ∧
    (∀ (db : Db) (u : User) (contactId : Nat) (resps : List AddressResponse),
      (list db u contactId).1 = Except.ok resps →
      (list db u contactId).2.2
        = [Step.checkContact, Step.store, Step.mapResponse]) := by
  refine ⟨?_, ?_, ?_, ?_, ?_⟩
  · intro db u r resp hok
    cases hv : validateCreate r with
    | false => simp [create, hv] at hok
    | true =>
      cases hc : checkContactMustExists db u.username r.contact_id with
      | error e => simp [create, hv, hc] at hok
      | ok v => simp [create, hv, hc]
  · intro db u r resp hok
    cases hv : validateGet r with
    | false => simp [AddressService.get, hv] at hok
    | true =>
      cases hc : checkContactMustExists db u.username r.contact_id with
      | error e => simp [AddressService.get, hv, hc] at hok
      | ok v =>
          cases hA : checkAddressMustExists db r.address_id r.contact_id with
          | error e => simp [AddressService.get, hv, hc, hA] at hok
          | ok a => simp [AddressService.get, hv, hc, hA]
  · intro db u r resp hok
    cases hv : validateUpdate r with
    | false => simp [update, hv] at hok
    | true =>
      cases hc : checkContactMustExists db u.username r.contact_id with
      | error e => simp [update, hv, hc] at hok
      | ok v =>
          cases hA : checkAddressMustExists db r.id r.contact_id with
          | error e => simp [update, hv, hc, hA] at hok
          | ok a =>
              cases hU : addressUpdate db a.id r with
              | none => simp [update, hv, hc, hA, hU] at hok
              | some p => simp [update, hv, hc, hA, hU]
  · intro db u r resp hok
    cases hv : validateRemove r with
    | false => simp [remove, hv] at hok
    | true =>
      cases hc : checkContactMustExists db u.username r.contact_id with
      | error e => simp [remove, hv, hc] at hok
      | ok v =>
          cases hA : checkAddressMustExists db r.address_id r.contact_id with
          | error e => simp [remove, hv, hc, hA] at hok
          | ok a =>
              cases hD : addressDelete db r.address_id with
              | none => simp [remove, hv, hc, hA, hD] at hok
              | some p => simp [remove, hv, hc, hA, hD]
  · intro db u contactId resps hok
    cases hc : checkContactMustExists db u.username contactId with
    | error e => simp [list, hc] at hok
    | ok v => simp [list, hc]

/-- The response for the row created by `createReqA` in `dbB`. -/
def respC : AddressResponse :=
  { id := 8, street := "street test", city := "city test",
    province := "province test", country := "country test",
    postal_code := "1111" }

/-- The response for the pre-existing row 7 of `dbB`. -/
def respG : AddressResponse :=
  { id := 7, street := "street test", city := "city test",
    province := "province test", country := "country test",
    postal_code := "1111" }

/-- Get request for alice's own address 7 under contact 1. -/
def getReqB : GetAddressRequest := { contact_id := 1, address_id := 7 }

/-- C8 witness: concrete successful runs of the five operations record
exactly the amended step sequences. -/
theorem pipeline_step_order_witness :
    (create dbB alice createReqA).2.2
      = [Step.validate, Step.checkContact, Step.store, Step.mapResponse] ∧
    (AddressService.get dbB alice getReqB).2.2
      = [Step.validate, Step.checkContact, Step.checkAddress,
          Step.mapResponse] ∧
    (update dbB alice updReqB).2.2
      = [Step.validate, Step.checkContact, Step.checkAddress, Step.store,
          Step.mapResponse] ∧
    (remove dbB alice rmReqB).2.2
      = [Step.validate, Step.checkContact, Step.checkAddress, Step.store,
          Step.mapResponse] ∧
    (list dbB alice 1).2.2
      = [Step.checkContact, Step.store, Step.mapResponse] :=
  ⟨pipeline_step_order.1 dbB alice createReqA respC (by decide),
   pipeline_step_order.2.1 dbB alice getReqB respG (by decide),
   pipeline_step_order.2.2.1 dbB alice updReqB respB (by decide),
   pipeline_step_order.2.2.2.1 dbB alice rmReqB respG (by decide),
   pipeline_step_order.2.2.2.2 dbB alice 1 [respG] (by decide)⟩

/-- C9: `toAddressResponse` is exactly the six-field projection (the
response type has no contact id or store metadata at all), every successful
create/get/update/remove response is that projection of a stored address
row, and a successful list maps the projection over exactly the rows the
store holds for the requested contact. -/
theorem responses_are_projections :
    (∀ a : Address, toAddressResponse a =
      { id := a.id, street := a.street, city := a.city, province := a.province,
        country := a.country, postal_code := a.postal_code }) ∧
    (∀ (db : Db) (u : User) (r : CreateAddressRequest) (resp : AddressResponse),
      (create db u r).1 = Except.ok resp →
      ∃ a ∈ (create db u r).2.1.addresses, resp = toAddressResponse a) ∧
    (∀ (db : Db) (u : User) (r : GetAddressRequest) (resp : AddressResponse),
      (AddressService.get db u r).1 = Except.ok resp →
      ∃ a ∈ db.addresses, resp = toAddressResponse a) ∧
    (∀ (db : Db) (u : User) (r : UpdateAddressRequest) (resp : AddressResponse),
      (update db u r).1 = Except.ok resp →
      ∃ a ∈ (update db u r).2.1.addresses, resp = toAddressResponse a) ∧
    (∀ (db : Db) (u : User) (r : RemoveAddressRequest) (resp : AddressResponse),
      (remove db u r).1 = Except.ok resp →
      ∃ a ∈ db.addresses, resp = toAddressResponse a) ∧
    (∀ (db : Db) (u : User) (contactId : Nat) (resps : List AddressResponse),
      (list db u contactId).1 = Except.ok resps →
      resps = (addressFindMany db contactId).map toAddressResponse) := by
  refine ⟨fun a => rfl, ?_, ?_, ?_, ?_, ?_⟩
  · intro db u r resp hok
    cases hv : validateCreate r with
    | false => simp [create, hv] at hok
    | true =>
      cases hc : checkContactMustExists db u.username r.contact_id with
      | error e => simp [create, hv, hc] at hok
      | ok v =>
          simp [create, hv, hc, addressCreate] at hok ⊢
          exact ⟨_, Or.inr rfl, hok.symm⟩
  · intro db u r resp hok
    cases hv : validateGet r with
    | false => simp [AddressService.get, hv] at hok
    | true =>
      cases hc : checkContactMustExists db u.username r.contact_id with
      | error e => simp [AddressService.get, hv, hc] at hok
      | ok v =>
          cases hA : checkAddressMustExists db r.address_id r.contact_id with
          | error e => simp [AddressService.get, hv, hc, hA] at hok
          | ok a =>
              simp [AddressService.get, hv, hc, hA] at hok
              exact ⟨a, (checkAddressMustExists_ok hA).1, hok.symm⟩
  · intro db u r resp hok
    cases hv : validateUpdate r with
    | false => simp [update, hv] at hok
    | true =>
      cases hc : checkContactMustExists db u.username r.contact_id with
      | error e => simp [update, hv, hc] at hok
      | ok v =>
          cases hA : checkAddressMustExists db r.id r.contact_id with
          | error e => simp [update, hv, hc, hA] at hok
          | ok a =>
              cases hU : addressUpdate db a.id r with
              | none => simp [update, hv, hc, hA, hU] at hok
              | some p =>
                  obtain ⟨hamem, ha1, _, _⟩ := checkAddressMustExists_ok hA
                  obtain ⟨hp1, _, _, hpa⟩ := addressUpdate_some hU
                  have h21 : (update db u r).2.1 = p.2 := by
                    simp [update, hv, hc, hA, hU]
                  have hrs : resp = toAddressResponse p.1 := by
                    simp [update, hv, hc, hA, hU] at hok
                    exact hok.symm
                  refine ⟨p.1, ?_, hrs⟩
                  rw [h21, hpa, hp1]
                  have := List.mem_map_of_mem
                    (fun x => if x.id == a.id then rowOfUpdate r else x) hamem
                  simpa [ha1] using this
  · intro db u r resp hok
    cases hv : validateRemove r with
    | false => simp [remove, hv] at hok
    | true =>
      cases hc : checkContactMustExists db u.username r.contact_id with
      | error e => simp [remove, hv, hc] at hok
      | ok v =>
          cases hA : checkAddressMustExists db r.address_id r.contact_id with
          | error e => simp [remove, hv, hc, hA] at hok
          | ok a =>
              cases hD : addressDelete db r.address_id with
              | none => simp [remove, hv, hc, hA, hD] at hok
              | some p =>
                  obtain ⟨_, _, _, hfind⟩ := addressDelete_some hD
                  have hrs : resp = toAddressResponse p.1 := by
                    simp [remove, hv, hc, hA, hD] at hok
                    exact hok.symm
                  exact ⟨p.1, List.mem_of_find?_eq_some hfind, hrs⟩
  · intro db u contactId resps hok
    cases hc : checkContactMustExists db u.username contactId with
    | error e => simp [list, hc] at hok
    | ok v =>
        simp [list, hc] at hok
        exact hok.symm

/-- C9 witness: a concrete successful get returns the projection of a
stored row, and a concrete successful list maps the projection over the
contact's rows. -/
theorem responses_are_projections_witness :
    (∃ a ∈ dbB.addresses, respG = toAddressResponse a) ∧
    [respG] = (addressFindMany dbB 1).map toAddressResponse :=
  ⟨responses_are_projections.2.2.1 dbB alice getReqB respG (by decide),
   responses_are_projections.2.2.2.2.2 dbB alice 1 [respG] (by decide)⟩

/-- C10: a successful remove on a well-formed store deletes exactly one
row — a row whose id is the requested address id and whose contact id is
the requested contact id — and leaves every other address row, the contact
rows and the id counter untouched; in particular it never deletes an
address belonging to a different contact. -/
theorem remove_frame_property :
    ∀ (db : Db) (u : User) (r : RemoveAddressRequest) (resp : AddressResponse),
      db.wf →
      (remove db u r).1 = Except.ok resp →
      ∃ l1 a l2,
        db.addresses = l1 ++ a :: l2 ∧
        (remove db u r).2.1.addresses = l1 ++ l2 ∧
        a.id = r.address_id ∧ a.contact_id = r.contact_id ∧
        (remove db u r).2.1.contacts = db.contacts ∧
        (remove db u r).2.1.nextId = db.nextId := by
  intro db u r resp hwf hok
  cases hv : validateRemove r with
  | false => simp [remove, hv] at hok
  | true =>
    cases hc : checkContactMustExists db u.username r.contact_id with
    | error e => simp [remove, hv, hc] at hok
    | ok v =>
        cases hA : checkAddressMustExists db r.address_id r.contact_id with
        | error e => simp [remove, hv, hc, hA] at hok
        | ok a =>
            cases hD : addressDelete db r.address_id with
            | none => simp [remove, hv, hc, hA, hD] at hok
            | some p =>
                obtain ⟨hamem, ha1, ha2, _⟩ := checkAddressMustExists_ok hA
                obtain ⟨hpc, hpn, hpa, _⟩ := addressDelete_some hD
                have h21 : (remove db u r).2.1 = p.2 := by
                  simp [remove, hv, hc, hA, hD]
                obtain ⟨l1, l2, hsplit, hdel⟩ :=
                  deleteById_split hwf.1 hamem ha1
                refine ⟨l1, a, l2, hsplit, ?_, ha1, ha2, ?_, ?_⟩
                · rw [h21, hpa]
                  exact hdel
                · rw [h21]
                  exact hpc
                · rw [h21]
                  exact hpn

/-- C10 witness: removing alice's address 7 from the concrete store splits
the row list around exactly that row and touches nothing else. -/
theorem remove_frame_property_witness :
    ∃ l1 a l2,
      dbB.addresses = l1 ++ a :: l2 ∧
      (remove dbB alice rmReqB).2.1.addresses = l1 ++ l2 ∧
      a.id = rmReqB.address_id ∧ a.contact_id = rmReqB.contact_id ∧
      (remove dbB alice rmReqB).2.1.contacts = dbB.contacts ∧
      (remove dbB alice rmReqB).2.1.nextId = dbB.nextId :=
  remove_frame_property dbB alice rmReqB respG (by decide) (by decide)
